import Mathlib

/-!
Shallow embedding of `src/soap/base/objectfactory.hpp`: a keyed object
factory.  The header defines a class template `ObjectFactory<key_t, T>`
holding a `std::map<key_t, T* (*)()>` named `_objects`, with operations
`Register` (two overloads), `Create`, `IsRegistered`, `getObjects`, a
function-local-static singleton `Instance()`, plus the helper
`create_policy_new<parent, T>` and the self-registration token
`ObjectFactoryRegister<object_type>`.

Modelling choices, each from the source:
* keys are a type `κ` with decidable equality (`std::map` needs an order on
  `key_t`; only presence/absence and the mapped value are observable);
* a constructor function pointer (`creator_t = T* (*)()`) is identified by
  the concrete type it instantiates, since the only constructor functions
  the header ever forms are the instantiations of
  `create_policy_new<parent, T>`;
* the free store is a `Heap` counter of the next address `new` returns, and
  an allocated object is observed by its address and its dynamic type;
* `throw std::runtime_error(msg)` becomes `Except.error ⟨msg⟩`, and
  `boost::lexical_cast<std::string>` is an arbitrary stringification
  function `cast : κ → String` supplied to `Create`;
* `Create` is a non-const member, so its translation returns the factory
  state after the call alongside the result and the heap;
* the `std::map` is held as the association list of its entries in
  insertion order (keys pairwise distinct); the map's internal ordering
  affects no observation the development makes.
-/

namespace soap
namespace base

/-- The free store as the factory's callers observe it: `next` is the
address the next `new` expression returns. -/
structure Heap where
  next : Nat
deriving DecidableEq, Repr

/-- A heap-allocated object, observed by the address `new` returned and by
its dynamic (concrete) type, drawn from a type `τ` of concrete-type tags. -/
structure Obj (τ : Type) where
  addr : Nat
  dynType : τ
deriving DecidableEq, Repr

/-- `typedef T* (*creator_t)();` — a constructor function pointer.  Every
such pointer the header creates is `&create_policy_new<parent, T>` for some
concrete type `T`, so a pointer is identified by that concrete-type tag. -/
inductive creator_t (τ : Type) where
  | create_policy_new (obj_t : τ)
deriving DecidableEq, Repr

/-- Body of `create_policy_new<parent, T>`: `return new T();` — allocate a
fresh object of the concrete type `T` at the next free address and return
it upcast to `parent`. -/
def create_policy_new_run {τ : Type} (obj_t : τ) (h : Heap) : Obj τ × Heap :=
  (⟨h.next, obj_t⟩, ⟨h.next + 1⟩)

/-- Call a `creator_t` function pointer on the current heap. -/
def runCreator {τ : Type} (c : creator_t τ) (h : Heap) : Obj τ × Heap :=
  match c with
  | .create_policy_new t => create_policy_new_run t h

/-- `std::runtime_error`, observed by its `what()` message. -/
structure RuntimeError where
  what : String
deriving DecidableEq, Repr

/-- `std::map::find` on the association list of the map's entries: `some`
the mapped value when the key has an entry, `none` when
`it == _objects.end()`. -/
def assocFind {κ α : Type} [DecidableEq κ] : List (κ × α) → κ → Option α
  | [], _ => none
  | (k, v) :: rest, key => if k = key then some v else assocFind rest key

/-- `ObjectFactory<key_t, T>`: its single data member
`assoc_map _objects`, the `std::map<key_t, creator_t>` held as the
association list of its entries. -/
structure ObjectFactory (κ τ : Type) where
  _objects : List (κ × creator_t τ)
deriving DecidableEq, Repr

namespace ObjectFactory

variable {κ τ : Type} [DecidableEq κ]

/-- `ObjectFactory()` — the default-constructed factory, as `Instance()`
lazily builds it on first access: an empty map. -/
def empty : ObjectFactory κ τ := ⟨[]⟩

/-- `Register(key, creator)`:
`(void)_objects.insert(typename assoc_map::value_type(key, creator)).second;`
— `std::map::insert` adds the entry only when no entry with that key
exists, and the returned success flag is discarded. -/
def Register (f : ObjectFactory κ τ) (key : κ) (creator : creator_t τ) :
    ObjectFactory κ τ :=
  match assocFind f._objects key with
  | some _ => f
  | none => ⟨f._objects ++ [(key, creator)]⟩

/-- `Register<obj_t>(key)`:
`Register(key, create_policy_new<abstract_type, obj_t>);`. -/
def RegisterT (f : ObjectFactory κ τ) (obj_t : τ) (key : κ) :
    ObjectFactory κ τ :=
  Register f key (creator_t.create_policy_new obj_t)

/-- `Create(key)`: probe `_objects.find(key)`; if found, call the stored
constructor and return the new instance; otherwise
`throw std::runtime_error("factory key " + lexical_cast<string>(key) + " not found.")`.
The translation returns the thrown-or-returned value, the heap after the
call, and the factory state after the call (`Create` is a non-const
member, so its effect on the state is part of the translation). -/
def Create (f : ObjectFactory κ τ) (cast : κ → String) (key : κ) (h : Heap) :
    Except RuntimeError (Obj τ) × Heap × ObjectFactory κ τ :=
  match assocFind f._objects key with
  | some c =>
      let r := runCreator c h
      (Except.ok r.1, r.2, f)
  | none =>
      (Except.error ⟨"factory key " ++ cast key ++ " not found."⟩, h, f)

/-- `IsRegistered(_id)`: `_objects.find(_id) != _objects.end()` — a `const`
member, translated as a pure function of the factory state. -/
def IsRegistered (f : ObjectFactory κ τ) (id : κ) : Bool :=
  (assocFind f._objects id).isSome

/-- `getObjects()`: `return _objects;` through a `const assoc_map &` — a
read-only view of the map's entries. -/
def getObjects (f : ObjectFactory κ τ) : List (κ × creator_t τ) :=
  f._objects

end ObjectFactory

/-- `ObjectFactoryRegister<object_type>`'s constructor:
`factory.Register(key, &create_policy_new<typename factory_type::abstract_type, object_type>);`.
The token class has no data members, so constructing one is exactly this
update of the supplied factory. -/
def ObjectFactoryRegister {κ τ : Type} [DecidableEq κ] (object_type : τ)
    (factory : ObjectFactory κ τ) (key : κ) : ObjectFactory κ τ :=
  factory.Register key (creator_t.create_policy_new object_type)

/-- The process-wide state of two distinct `Instance()` singletons,
`ObjectFactory<κ₁, τ₁>::Instance()` and `ObjectFactory<κ₂, τ₂>::Instance()`:
each template instantiation owns its own function-local static object. -/
structure TwoInstances (κ₁ τ₁ κ₂ τ₂ : Type) where
  fst_instance : ObjectFactory κ₁ τ₁
  snd_instance : ObjectFactory κ₂ τ₂

/-- `Instance().Register(key, creator)` against the first singleton: only
the first instantiation's static is named by the call. -/
def registerFst {κ₁ τ₁ κ₂ τ₂ : Type} [DecidableEq κ₁]
    (s : TwoInstances κ₁ τ₁ κ₂ τ₂) (key : κ₁) (c : creator_t τ₁) :
    TwoInstances κ₁ τ₁ κ₂ τ₂ :=
  { s with fst_instance := s.fst_instance.Register key c }

/-- `Instance().Register(key, creator)` against the second singleton. -/
def registerSnd {κ₁ τ₁ κ₂ τ₂ : Type} [DecidableEq κ₂]
    (s : TwoInstances κ₁ τ₁ κ₂ τ₂) (key : κ₂) (c : creator_t τ₂) :
    TwoInstances κ₁ τ₁ κ₂ τ₂ :=
  { s with snd_instance := s.snd_instance.Register key c }

/-- Constructing an `ObjectFactoryRegister<A>` token against the first
singleton. -/
def tokenFst {κ₁ τ₁ κ₂ τ₂ : Type} [DecidableEq κ₁] (A : τ₁)
    (s : TwoInstances κ₁ τ₁ κ₂ τ₂) (key : κ₁) :
    TwoInstances κ₁ τ₁ κ₂ τ₂ :=
  { s with fst_instance := ObjectFactoryRegister A s.fst_instance key }

section Lemmas

variable {κ τ α : Type} [DecidableEq κ]

open ObjectFactory

/-- A key found in the front part of a map is found, with the same value,
in the whole map. -/
theorem assocFind_append_of_some {l₁ l₂ : List (κ × α)} {k : κ} {v : α}
    (h : assocFind l₁ k = some v) : assocFind (l₁ ++ l₂) k = some v := by
  induction l₁ with
  | nil => simp [assocFind] at h
  | cons p rest ih =>
    obtain ⟨pk, pv⟩ := p
    by_cases hpk : pk = k
    · simpa [assocFind, hpk] using h
    · simp only [assocFind, hpk, if_false, List.cons_append] at h ⊢
      exact ih h

/-- A key absent from the front part of a map is looked up in the rest. -/
theorem assocFind_append_of_none {l₁ l₂ : List (κ × α)} {k : κ}
    (h : assocFind l₁ k = none) :
    assocFind (l₁ ++ l₂) k = assocFind l₂ k := by
  induction l₁ with
  | nil => simp
  | cons p rest ih =>
    obtain ⟨pk, pv⟩ := p
    by_cases hpk : pk = k
    · simp [assocFind, hpk] at h
    · simp only [assocFind, hpk, if_false, List.cons_append] at h ⊢
      exact ih h

/-- `Register` on an already-registered key returns the factory unchanged
(`std::map::insert` finds the equivalent key and inserts nothing). -/
theorem Register_of_registered {f : ObjectFactory κ τ} {k : κ}
    {c : creator_t τ} (h : IsRegistered f k = true) : Register f k c = f := by
  rcases hv : assocFind f._objects k with _ | v
  · simp [IsRegistered, hv] at h
  · simp [Register, hv]

/-- `Register` on an unregistered key appends the new entry. -/
theorem Register_of_not_registered {f : ObjectFactory κ τ} {k : κ}
    {c : creator_t τ} (h : IsRegistered f k = false) :
    Register f k c = ⟨f._objects ++ [(k, c)]⟩ := by
  rcases hv : assocFind f._objects k with _ | v
  · simp [Register, hv]
  · simp [IsRegistered, hv] at h

/-- After registering an unregistered key, looking it up yields the
registered constructor. -/
theorem assocFind_Register_self {f : ObjectFactory κ τ} {k : κ}
    {c : creator_t τ} (h : IsRegistered f k = false) :
    assocFind (Register f k c)._objects k = some c := by
  rcases hv : assocFind f._objects k with _ | v
  · rw [Register_of_not_registered h]
    rw [assocFind_append_of_none hv]
    simp [assocFind]
  · simp [IsRegistered, hv] at h

/-- `Register` never disturbs an existing entry, whatever key it is given. -/
theorem assocFind_Register_preserve {f : ObjectFactory κ τ} {k : κ}
    {c : creator_t τ} (k' : κ) (c' : creator_t τ)
    (h : assocFind f._objects k = some c) :
    assocFind (Register f k' c')._objects k = some c := by
  rcases hv : assocFind f._objects k' with _ | v
  · simp only [Register, hv]
    exact assocFind_append_of_some h
  · simpa [Register, hv] using h

end Lemmas

section Claims

variable {κ τ κ₂ τ₂ : Type} [DecidableEq κ]

open ObjectFactory

/-- Claim C1: `Create k` throws the `runtime_error` whose message is
`"factory key " ++ cast k ++ " not found."` exactly when no constructor is
registered under `k`; when a constructor is registered it calls that
constructor and returns its result; and every error `Create` can produce is
that one, raised only in the not-registered condition.  The remaining
operations are total functions of the state, so this is the only failure
path. -/
theorem Create_fails_iff_not_registered (f : ObjectFactory κ τ)
    (cast : κ → String) (k : κ) (hp : Heap) :
    ((Create f cast k hp).1 =
        Except.error ⟨"factory key " ++ cast k ++ " not found."⟩
      ↔ IsRegistered f k = false)
    ∧ (∀ c, assocFind f._objects k = some c →
        (Create f cast k hp).1 = Except.ok (runCreator c hp).1)
    ∧ (∀ e, (Create f cast k hp).1 = Except.error e →
        e.what = "factory key " ++ cast k ++ " not found."
          ∧ IsRegistered f k = false) := by
  rcases hc : assocFind f._objects k with _ | c <;>
    simp [Create, IsRegistered, hc]

/-- Claim C2: `Register` follows insert-if-absent and is total: on a key
that is already registered it leaves the factory unchanged (the first
registration wins and the new constructor is discarded), so `Create` on
that key keeps behaving as before; totality is inherent in `Register`
being a function of the state. -/
theorem Register_insert_if_absent (f : ObjectFactory κ τ) (k : κ)
    (c : creator_t τ) (h : IsRegistered f k = true) :
    Register f k c = f
    ∧ ∀ cast hp, Create (Register f k c) cast k hp = Create f cast k hp := by
  have h1 : Register f k c = f := Register_of_registered h
  exact ⟨h1, fun cast hp => by rw [h1]⟩

/-- Claim C2 at a concrete input: with key `1` registered for concrete type
`10`, registering constructor `20` under key `1` changes nothing. -/
theorem Register_insert_if_absent_witness :
    Register (Register (empty : ObjectFactory Nat Nat) 1
        (creator_t.create_policy_new 10)) 1 (creator_t.create_policy_new 20)
      = Register (empty : ObjectFactory Nat Nat) 1
          (creator_t.create_policy_new 10) :=
  (Register_insert_if_absent
    (Register (empty : ObjectFactory Nat Nat) 1
      (creator_t.create_policy_new 10)) 1
    (creator_t.create_policy_new 20) (by decide)).1

/-- Claim C3: register concrete type `A` under a previously unregistered
key `a`; then `Create a` returns the freshly allocated object of dynamic
type `A` at the next free address, a second `Create a` on the heap the
first call left returns another object of type `A` at a distinct address
(the two instances differ), and `Create` hands the instance over without
changing the factory — no reference is retained. -/
theorem Create_returns_fresh_instances (f : ObjectFactory κ τ) (A : τ)
    (a : κ) (cast : κ → String) (hp : Heap)
    (h : IsRegistered f a = false) :
    ((Create (RegisterT f A a) cast a hp).1 = Except.ok ⟨hp.next, A⟩)
    ∧ ((Create (RegisterT f A a) cast a
          (Create (RegisterT f A a) cast a hp).2.1).1
        = Except.ok ⟨hp.next + 1, A⟩)
    ∧ ((⟨hp.next, A⟩ : Obj τ) ≠ ⟨hp.next + 1, A⟩)
    ∧ ((Create (RegisterT f A a) cast a hp).2.2 = RegisterT f A a) := by
  have hfind : assocFind (RegisterT f A a)._objects a
      = some (creator_t.create_policy_new A) :=
    assocFind_Register_self h
  refine ⟨?_, ?_, ?_, ?_⟩
  · simp [Create, hfind, runCreator, create_policy_new_run]
  · simp [Create, hfind, runCreator, create_policy_new_run]
  · intro he
    exact absurd (congrArg Obj.addr he) (by simp)
  · simp [Create, hfind]

/-- Claim C3 at a concrete input: an empty factory, concrete type `10`,
key `1`, heap starting at address `0`. -/
theorem Create_returns_fresh_instances_witness :
    ((Create (RegisterT (empty : ObjectFactory Nat Nat) 10 1) toString 1
        ⟨0⟩).1 = Except.ok ⟨0, 10⟩)
    ∧ ((Create (RegisterT (empty : ObjectFactory Nat Nat) 10 1) toString 1
          (Create (RegisterT (empty : ObjectFactory Nat Nat) 10 1) toString 1
            ⟨0⟩).2.1).1
        = Except.ok ⟨0 + 1, 10⟩)
    ∧ ((⟨0, 10⟩ : Obj Nat) ≠ ⟨0 + 1, 10⟩)
    ∧ ((Create (RegisterT (empty : ObjectFactory Nat Nat) 10 1) toString 1
          ⟨0⟩).2.2
        = RegisterT (empty : ObjectFactory Nat Nat) 10 1) :=
  Create_returns_fresh_instances (empty : ObjectFactory Nat Nat) 10 1
    toString ⟨0⟩ (by decide)

/-- Claim C4: `IsRegistered k` is true exactly when some constructor is
registered under `k`.  The member is `const`, so it is translated as a pure
function of the state: it can disturb nothing and always returns a Bool. -/
theorem IsRegistered_iff_registered (f : ObjectFactory κ τ) (k : κ) :
    IsRegistered f k = true ↔ ∃ c, assocFind f._objects k = some c := by
  simp [IsRegistered, Option.isSome_iff_exists]

/-- Claim C5: constructing an `ObjectFactoryRegister<A>` token with
`(factory, key)` performs exactly the registration `Register<A>(key)` on
that factory; the token holds no other state, and a distinct singleton is
left untouched by the construction. -/
theorem token_registers_once (A : τ) (f : ObjectFactory κ τ) (k : κ)
    (s : TwoInstances κ τ κ₂ τ₂) :
    ObjectFactoryRegister A f k = RegisterT f A k
    ∧ (tokenFst A s k).fst_instance = ObjectFactoryRegister A s.fst_instance k
    ∧ (tokenFst A s k).snd_instance = s.snd_instance :=
  ⟨rfl, rfl, rfl⟩

/-- Spec-side constructor for claim C6, following the spec's words: a
constructor that allocates a new `ConcreteType` with no arguments and
returns it upcast to `AbstractType` — invoked on heap `h` it yields the
fresh object of dynamic type `ConcreteType` at the next free address. -/
def specWrappedConstructor {τ : Type} (ConcreteType : τ) (h : Heap) :
    Obj τ × Heap :=
  (⟨h.next, ConcreteType⟩, ⟨h.next + 1⟩)

/-- Claim C6: the convenience overload `Register<A>(k)` equals the basic
`Register(k, c)` where `c` is the constructor wrapping
`create_policy_new<abstract_type, A>`; that constructor's behaviour is the
spec's allocate-new-`ConcreteType`-and-upcast semantics; and `Create`
afterwards behaves identically on the two resulting states. -/
theorem RegisterT_refines_Register (f : ObjectFactory κ τ) (A : τ) (k : κ) :
    RegisterT f A k = Register f k (creator_t.create_policy_new A)
    ∧ (∀ h, runCreator (creator_t.create_policy_new A) h
        = specWrappedConstructor A h)
    ∧ ∀ cast k' hp, Create (RegisterT f A k) cast k' hp
        = Create (Register f k (creator_t.create_policy_new A)) cast k' hp :=
  ⟨rfl, fun _ => rfl, fun _ _ _ => rfl⟩

/-- Claim C7: registering exactly the pairwise distinct keys `a`, `b`, `c`
into the empty map leaves `getObjects` a view holding exactly those three
keys, each mapped to the constructor registered under it, and no others;
the view is read-only by construction (`const` reference, translated as a
pure projection). -/
theorem getObjects_exactly_registered (a b c : κ) (ca cb cc : creator_t τ)
    (hab : a ≠ b) (hac : a ≠ c) (hbc : b ≠ c) :
    assocFind (getObjects (Register (Register (Register empty a ca) b cb)
      c cc)) a = some ca
    ∧ assocFind (getObjects (Register (Register (Register empty a ca) b cb)
        c cc)) b = some cb
    ∧ assocFind (getObjects (Register (Register (Register empty a ca) b cb)
        c cc)) c = some cc
    ∧ ∀ k, (assocFind (getObjects (Register (Register (Register empty a ca)
        b cb) c cc)) k).isSome = true → k = a ∨ k = b ∨ k = c := by
  have hF : Register (Register (Register (empty : ObjectFactory κ τ) a ca)
      b cb) c cc = ⟨[(a, ca), (b, cb), (c, cc)]⟩ := by
    simp [Register, empty, assocFind, hab, hac, hbc]
  refine ⟨?_, ?_, ?_, ?_⟩
  · simp [hF, getObjects, assocFind]
  · simp [hF, getObjects, assocFind, hab]
  · simp [hF, getObjects, assocFind, hac, hbc]
  · intro k hk
    by_cases h1 : a = k
    · exact Or.inl h1.symm
    by_cases h2 : b = k
    · exact Or.inr (Or.inl h2.symm)
    by_cases h3 : c = k
    · exact Or.inr (Or.inr h3.symm)
    simp [hF, getObjects, assocFind, h1, h2, h3] at hk

/-- Claim C7 at a concrete input: keys `1`, `2`, `3` with constructors for
concrete types `10`, `20`, `30`. -/
theorem getObjects_exactly_registered_witness :
    assocFind (getObjects (Register (Register (Register
        (empty : ObjectFactory Nat Nat) 1 (creator_t.create_policy_new 10))
        2 (creator_t.create_policy_new 20)) 3
        (creator_t.create_policy_new 30))) 1
      = some (creator_t.create_policy_new 10)
    ∧ assocFind (getObjects (Register (Register (Register
        (empty : ObjectFactory Nat Nat) 1 (creator_t.create_policy_new 10))
        2 (creator_t.create_policy_new 20)) 3
        (creator_t.create_policy_new 30))) 2
      = some (creator_t.create_policy_new 20)
    ∧ assocFind (getObjects (Register (Register (Register
        (empty : ObjectFactory Nat Nat) 1 (creator_t.create_policy_new 10))
        2 (creator_t.create_policy_new 20)) 3
        (creator_t.create_policy_new 30))) 3
      = some (creator_t.create_policy_new 30)
    ∧ ∀ k, (assocFind (getObjects (Register (Register (Register
        (empty : ObjectFactory Nat Nat) 1 (creator_t.create_policy_new 10))
        2 (creator_t.create_policy_new 20)) 3
        (creator_t.create_policy_new 30))) k).isSome = true
        → k = 1 ∨ k = 2 ∨ k = 3 :=
  getObjects_exactly_registered 1 2 3 (creator_t.create_policy_new 10)
    (creator_t.create_policy_new 20) (creator_t.create_policy_new 30)
    (by decide) (by decide) (by decide)

/-- Claim C8: the singletons of two distinct (KeyType, AbstractType)
instantiations are independent: `Register` on either one leaves the other
exactly as it was, so `IsRegistered` on the other is unaffected. -/
theorem instances_independent [DecidableEq κ₂] (s : TwoInstances κ τ κ₂ τ₂)
    (x : κ) (c : creator_t τ) (y : κ₂) (c₂ : creator_t τ₂) :
    (registerFst s x c).snd_instance = s.snd_instance
    ∧ IsRegistered (registerFst s x c).snd_instance y
        = IsRegistered s.snd_instance y
    ∧ (registerSnd s y c₂).fst_instance = s.fst_instance
    ∧ IsRegistered (registerSnd s y c₂).fst_instance x
        = IsRegistered s.fst_instance x :=
  ⟨rfl, rfl, rfl, rfl⟩

/-- Claim C9: registration is permanent.  A key mapped to constructor `c`
is still mapped to exactly `c` after every subsequent operation that
touches the state: `Register` with any arguments, the template overload,
token construction, and `Create` with any key (whether it succeeds or
throws); `IsRegistered` and `getObjects` are pure and change nothing. -/
theorem registration_permanent (f : ObjectFactory κ τ) (k : κ)
    (c : creator_t τ) (k' : κ) (c' : creator_t τ) (A : τ)
    (cast : κ → String) (hp : Heap)
    (h : assocFind f._objects k = some c) :
    assocFind (Register f k' c')._objects k = some c
    ∧ assocFind (RegisterT f A k')._objects k = some c
    ∧ assocFind (ObjectFactoryRegister A f k')._objects k = some c
    ∧ assocFind ((Create f cast k' hp).2.2)._objects k = some c := by
  refine ⟨assocFind_Register_preserve k' c' h,
    assocFind_Register_preserve k' _ h,
    assocFind_Register_preserve k' _ h, ?_⟩
  rcases hc : assocFind f._objects k' with _ | v <;> simpa [Create, hc] using h

/-- Claim C9 at a concrete input: key `1` keeps its constructor across a
later registration of key `2`, a token for key `3`, and a throwing
`Create 5`. -/
theorem registration_permanent_witness :
    assocFind (Register (Register (empty : ObjectFactory Nat Nat) 1
        (creator_t.create_policy_new 10)) 2
        (creator_t.create_policy_new 20))._objects 1
      = some (creator_t.create_policy_new 10)
    ∧ assocFind (RegisterT (Register (empty : ObjectFactory Nat Nat) 1
        (creator_t.create_policy_new 10)) 30 2)._objects 1
      = some (creator_t.create_policy_new 10)
    ∧ assocFind (ObjectFactoryRegister 30 (Register
        (empty : ObjectFactory Nat Nat) 1
        (creator_t.create_policy_new 10)) 2)._objects 1
      = some (creator_t.create_policy_new 10)
    ∧ assocFind ((Create (Register (empty : ObjectFactory Nat Nat) 1
        (creator_t.create_policy_new 10)) toString 2 ⟨0⟩).2.2)._objects 1
      = some (creator_t.create_policy_new 10) :=
  registration_permanent (Register (empty : ObjectFactory Nat Nat) 1
      (creator_t.create_policy_new 10)) 1 (creator_t.create_policy_new 10)
    2 (creator_t.create_policy_new 20) 30 toString ⟨0⟩ (by decide)

/-- Claim C10: `Create` never mutates the factory: the state it returns is
the state it was given — the key-to-constructor mapping after the call
equals the mapping before — both when a constructor is found and invoked
and when the call throws KeyNotFound. -/
theorem Create_preserves_state (f : ObjectFactory κ τ) (cast : κ → String)
    (k : κ) (hp : Heap) :
    (Create f cast k hp).2.2 = f
    ∧ ((Create f cast k hp).2.2)._objects = f._objects := by
  rcases hc : assocFind f._objects k with _ | v <;> simp [Create, hc]

end Claims

end base
end soap
